import Mathlib

/-!
Verification of the synthetic health-data generator
(`generate_synthetic_data.py`) against its natural-language specification.

The Python source is shallowly embedded: every random draw made by the
program (`random.random()`, `random.randint`, `np.random.choice`,
`random.normalvariate`, `np.random.normal`, shuffle/sample index draws)
is passed in explicitly as a parameter or draw stream, so each theorem
quantifies over all possible outcomes of those draws.  Machine floats in
the source are modelled as `ℚ`, Python ints as `Int`/`Nat`.
-/

namespace SynthData

/-! ### Blood-pressure and glucose range classification -/

/-- Translation of `get_bp_type(systolic, diastolic)` (source lines
353-373): classifies each limb of a blood-pressure reading into one of
four ordinal risk bands. -/
def get_bp_type (systolic diastolic : Int) : String × String :=
  let systolic_type :=
    if systolic < 90 then "Low blood pressure"
    else if 90 ≤ systolic ∧ systolic ≤ 120 then "Ideal"
    else if 120 < systolic ∧ systolic ≤ 140 then "Pre-high blood pressure"
    else "High blood pressure"
  let diastolic_type :=
    if diastolic < 60 then "Low blood pressure"
    else if 60 ≤ diastolic ∧ diastolic ≤ 80 then "Ideal"
    else if 80 < diastolic ∧ diastolic ≤ 90 then "Pre-high blood pressure"
    else "High blood pressure"
  (systolic_type, diastolic_type)

/-- Translation of `get_glucose_range(glucose, measurement_type)` (source
lines 426-441): classifies a glucose value with type-specific thresholds;
any measurement type other than `"Pre meal"` is treated as a 2-hour
post-meal reading. -/
def get_glucose_range (glucose : ℚ) (measurement_type : String) : String :=
  if measurement_type = "Pre meal" then
    if glucose < 4 then "below range"
    else if 4 ≤ glucose ∧ glucose ≤ 7 then "in range"
    else "above range"
  else
    if glucose < 5 then "below range"
    else if 5 ≤ glucose ∧ glucose ≤ 10 then "in range"
    else "above range"

/-- Transcription of the documented glucose threshold table from the
specification (pre-meal: below 4.0 / 4.0 to 7.0 inclusive / above 7.0;
post-meal: below 5.0 / 5.0 to 10.0 inclusive / above 10.0), used as the
refinement target for the source classifier. -/
def glucose_range_spec (glucose : ℚ) (measurement_type : String) : String :=
  if measurement_type = "Pre meal" then
    if glucose < 4 then "below range"
    else if glucose ≤ 7 then "in range"
    else "above range"
  else
    if glucose < 5 then "below range"
    else if glucose ≤ 10 then "in range"
    else "above range"

/-- Transcription of the documented blood-pressure band table from the
specification (systolic thresholds at 90/120/140, diastolic thresholds at
60/80/90), used as the refinement target for the source classifier. -/
def bp_type_spec (systolic diastolic : Int) : String × String :=
  (if systolic < 90 then "Low blood pressure"
   else if systolic ≤ 120 then "Ideal"
   else if systolic ≤ 140 then "Pre-high blood pressure"
   else "High blood pressure",
   if diastolic < 60 then "Low blood pressure"
   else if diastolic ≤ 80 then "Ideal"
   else if diastolic ≤ 90 then "Pre-high blood pressure"
   else "High blood pressure")

/-! ### Exercise generation -/

/-- The fixed exercise-type vocabulary `EXERCISE_TYPES` (source line 227). -/
def EXERCISE_TYPES : List String :=
  ["walking", "swimming", "running", "biking", "muscle-strengthening", "balance", "other"]

/-- Ordered insertion used to model Python's stable `sorted` on integer
lists (source line 195 sorts the random split points ascending). -/
def insort (x : Int) : List Int → List Int
  | [] => [x]
  | y :: ys => if x ≤ y then x :: y :: ys else y :: insort x ys

/-- Model of Python's `sorted` on a list of integers. -/
def py_sorted (l : List Int) : List Int := l.foldr insort []

/-- Consecutive differences `splits[i+1] - splits[i]` of a list of split
points (source line 197). -/
def diffs : List Int → List Int
  | a :: b :: rest => (b - a) :: diffs (b :: rest)
  | _ => []

/-- The guarded slot access `selected_exercises[k] if
len(selected_exercises) > k else ""` from the exercise dict literal
(source lines 200-216). -/
def ex_type (selected : List String) (k : Nat) : String :=
  if k < selected.length then selected.getD k "" else ""

/-- The guarded slot access `exercise_minutes[k] if
len(selected_exercises) > k else 0` from the exercise dict literal
(source lines 200-216). -/
def ex_minutes (selected : List String) (minutes : List Int) (k : Nat) : Int :=
  if k < selected.length then minutes.getD k 0 else 0

/-- The per-day exercise record built by `generate_exercise_data`
(source lines 200-216): five fixed slots of type/minutes/category. -/
structure ExerciseData where
  Exercise_Type_1 : String
  Exercise_Minutes_1 : Int
  Exercise_Category_1 : String
  Exercise_Type_2 : String
  Exercise_Minutes_2 : Int
  Exercise_Category_2 : String
  Exercise_Type_3 : String
  Exercise_Minutes_3 : Int
  Exercise_Category_3 : String
  Exercise_Type_4 : String
  Exercise_Minutes_4 : Int
  Exercise_Category_4 : String
  Exercise_Type_5 : String
  Exercise_Minutes_5 : Int
  Exercise_Category_5 : String
deriving DecidableEq

/-- Translation of `generate_exercise_data` (source lines 176-218).  The
random draws are passed explicitly: `num_exercises` is the
`np.random.choice([1..5], p=exercise_probs)` outcome, `total_minutes` the
`random.randint(5, 29)` outcome, `raw_splits` the `num_exercises - 1`
outcomes of `random.randint(1, total_minutes - 1)`, and
`selected_exercises` the `random.sample(EXERCISE_TYPES, num_exercises)`
outcome. -/
def generate_exercise_data (num_exercises : Nat) (total_minutes : Int)
    (raw_splits : List Int) (selected_exercises : List String) : ExerciseData :=
  let exercise_minutes : List Int :=
    if num_exercises = 1 then [total_minutes]
    else diffs ([0] ++ py_sorted raw_splits ++ [total_minutes])
  { Exercise_Type_1 := ex_type selected_exercises 0
    Exercise_Minutes_1 := ex_minutes selected_exercises exercise_minutes 0
    Exercise_Category_1 := ex_type selected_exercises 0
    Exercise_Type_2 := ex_type selected_exercises 1
    Exercise_Minutes_2 := ex_minutes selected_exercises exercise_minutes 1
    Exercise_Category_2 := ex_type selected_exercises 1
    Exercise_Type_3 := ex_type selected_exercises 2
    Exercise_Minutes_3 := ex_minutes selected_exercises exercise_minutes 2
    Exercise_Category_3 := ex_type selected_exercises 2
    Exercise_Type_4 := ex_type selected_exercises 3
    Exercise_Minutes_4 := ex_minutes selected_exercises exercise_minutes 3
    Exercise_Category_4 := ex_type selected_exercises 3
    Exercise_Type_5 := ex_type selected_exercises 4
    Exercise_Minutes_5 := ex_minutes selected_exercises exercise_minutes 4
    Exercise_Category_5 := ex_type selected_exercises 4 }

lemma insort_length (x : Int) (l : List Int) : (insort x l).length = l.length + 1 := by
  induction l with
  | nil => rfl
  | cons y ys ih => by_cases h : x ≤ y <;> simp [insort, h, ih]

lemma py_sorted_length (l : List Int) : (py_sorted l).length = l.length := by
  induction l with
  | nil => rfl
  | cons x xs ih => simp [py_sorted, List.foldr] at ih ⊢; rw [insort_length, ih]

lemma diffs_length : ∀ l : List Int, (diffs l).length = l.length - 1
  | [] => rfl
  | [_] => rfl
  | a :: b :: t => by
    have ih := diffs_length (b :: t)
    simp [diffs] at ih ⊢
    omega

lemma diffs_sum : ∀ (a : Int) (l : List Int), (diffs (a :: l)).sum = l.getLastD a - a
  | _, [] => by simp [diffs]
  | a, b :: t => by
    have ih := diffs_sum b t
    show ((b - a) :: diffs (b :: t)).sum = (b :: t).getLastD a - a
    rw [List.sum_cons, ih, List.getLastD_cons]
    ring

lemma getLastD_concat_int : ∀ (l : List Int) (x d : Int), (l ++ [x]).getLastD d = x
  | [], _, _ => rfl
  | a :: t, x, d => by
    rw [List.cons_append, List.getLastD_cons, getLastD_concat_int t x a]

lemma sum_5_getD (l : List Int) (h : l.length ≤ 5) :
    l.getD 0 0 + l.getD 1 0 + l.getD 2 0 + l.getD 3 0 + l.getD 4 0 = l.sum := by
  rcases l with _ | ⟨a, _ | ⟨b, _ | ⟨c, _ | ⟨d, _ | ⟨e, rest⟩⟩⟩⟩⟩
  · rfl
  · simp [List.getD, add_assoc]
  · simp [List.getD, add_assoc]
  · simp [List.getD, add_assoc]
  · simp [List.getD, add_assoc]
  · have : rest = [] := by
      simp only [List.length_cons] at h
      exact List.eq_nil_of_length_eq_zero (by omega)
    subst this
    simp [List.getD, add_assoc]

lemma ex_minutes_eq_getD (selected : List String) (minutes : List Int) (k : Nat)
    (hlen : minutes.length = selected.length) :
    ex_minutes selected minutes k = minutes.getD k 0 := by
  unfold ex_minutes
  split_ifs with h
  · rfl
  · rw [List.getD_eq_default]
    omega

/-! ### Measurement timestamps -/

/-- Zero-padded two-digit formatting `f"{n:02d}"` for hours/minutes. -/
def two_digit (n : Nat) : String :=
  if n < 10 then "0" ++ toString n else toString n

/-- Circular time difference in minutes with day wraparound (source lines
398-401): differences above 12 hours are folded back. -/
def circ_diff (t u : Nat) : Nat :=
  let d := max t u - min t u
  if d > 720 then 1440 - d else d

/-- The spacing validity check of
`generate_measurement_timestamps_with_spacing` (source lines 395-404): a
candidate time is valid when it is at least `min_hours_between` hours away
from every already-used time. -/
def valid_time (min_hours_between : Nat) (used : List Nat) (t : Nat) : Bool :=
  used.all fun u => decide (min_hours_between * 60 ≤ circ_diff t u)

/-- The inner rejection loop of
`generate_measurement_timestamps_with_spacing` (source lines 384-413):
up to `fuel` attempts (50 in the source), drawing hour/minute pairs from
the stream; returns the accepted (or, on exhaustion, last drawn) hour and
minute, whether it was valid, and the next draw index. -/
def attempt_loop (min_hours_between : Nat) (used : List Nat) (draws : Nat → Nat × Nat) :
    Nat → Nat → Nat × Nat × Bool × Nat
  | k, 0 => (0, 0, false, k)
  | k, fuel + 1 =>
    let hour := (draws k).1 % 24
    let minute := (draws k).2 % 60
    let t := hour * 60 + minute
    if valid_time min_hours_between used t then (hour, minute, true, k + 1)
    else if fuel = 0 then (hour, minute, false, k + 1)
    else attempt_loop min_hours_between used draws (k + 1) fuel

/-- The outer reading loop of
`generate_measurement_timestamps_with_spacing` (source lines 383-418):
one timestamp per reading, recording accepted times in `used`. -/
def ts_loop (min_hours_between : Nat) (draws : Nat → Nat × Nat) :
    Nat → List Nat → List String → Nat → List String
  | 0, _, timestamps, _ => timestamps
  | i + 1, used, timestamps, k =>
    let r := attempt_loop min_hours_between used draws k 50
    let hour := r.1
    let minute := r.2.1
    let ok := r.2.2.1
    let k2 := r.2.2.2
    let ts := timestamps ++ [two_digit hour ++ ":" ++ two_digit minute]
    if ok then ts_loop min_hours_between draws i (used ++ [hour * 60 + minute]) ts k2
    else ts_loop min_hours_between draws i used ts k2

/-- Translation of `generate_measurement_timestamps_with_spacing`
(source lines 375-424); the hour/minute draws `random.randint(0, 23)` and
`random.randint(0, 59)` come from the explicit stream. -/
def generate_measurement_timestamps_with_spacing (num_readings min_hours_between : Nat)
    (draws : Nat → Nat × Nat) : List String :=
  if num_readings = 0 then ["", "", "", ""]
  else
    let timestamps := ts_loop min_hours_between draws num_readings [] [] 0
    timestamps ++ List.replicate (4 - timestamps.length) ""

/-! ### Blood-pressure and glucose reading generation -/

/-- One populated blood-pressure slot (source lines 460-474): systolic
and diastolic normal draws come from the streams, diastolic is clamped to
at most systolic minus 10, followed by the final safety branch. -/
def bp_slot (num_readings : Nat) (sdraw ddraw : Nat → Int) (i : Nat) :
    Int × Int × String × String :=
  if i < num_readings then
    let systolic := sdraw i
    let max_diastolic := systolic - 10
    let diastolic := min (ddraw i) max_diastolic
    let diastolic2 := if systolic ≤ diastolic then max 40 (systolic - 10) else diastolic
    (systolic, diastolic2, (get_bp_type systolic diastolic2).1, (get_bp_type systolic diastolic2).2)
  else (0, 0, "", "")

/-- Translation of `generate_blood_pressure_readings(has_condition)`
(source lines 443-486).  `num_readings` is the
`np.random.choice([1,2,3,4], p=[0.516,0.258,0.129,0.097])` outcome,
`tdraws` feeds the timestamp generator, and `sdraw`/`ddraw` are the
truncated `random.normalvariate(130,15)` / `random.normalvariate(85,10)`
outcomes per slot.  Returns (systolic readings, diastolic readings,
systolic types, diastolic types, timestamps). -/
def generate_blood_pressure_readings (has_condition : Bool) (num_readings : Nat)
    (tdraws : Nat → Nat × Nat) (sdraw ddraw : Nat → Int) :
    List Int × List Int × List String × List String × List String :=
  if !has_condition then
    ([0, 0, 0, 0], [0, 0, 0, 0], ["", "", "", ""], ["", "", "", ""], ["", "", "", ""])
  else
    let timestamps := generate_measurement_timestamps_with_spacing num_readings 1 tdraws
    ((List.range 4).map fun i => (bp_slot num_readings sdraw ddraw i).1,
     (List.range 4).map fun i => (bp_slot num_readings sdraw ddraw i).2.1,
     (List.range 4).map fun i => (bp_slot num_readings sdraw ddraw i).2.2.1,
     (List.range 4).map fun i => (bp_slot num_readings sdraw ddraw i).2.2.2,
     timestamps)

/-- Rounding to one decimal place, modelling Python's `round(x, 1)`
(numpy uses round-half-to-even at exact midpoints; the claims verified
here never depend on midpoint behaviour). -/
def round1 (x : ℚ) : ℚ := (round (10 * x) : ℤ) / 10

/-- One populated glucose slot (source lines 504-514): the measurement
type is a uniform choice between "Pre meal" and "2-hour post meal", the
raw normal draw is clipped to the type-specific interval and rounded to
one decimal, then classified. -/
def glucose_slot (num_readings : Nat) (tydraw : Nat → Bool) (vdraw : Nat → ℚ) (i : Nat) :
    ℚ × String × String :=
  if i < num_readings then
    let measurement_type := if tydraw i then "Pre meal" else "2-hour post meal"
    let glucose :=
      if tydraw i then round1 (max 3 (min 9 (vdraw i)))
      else round1 (max 4 (min 12 (vdraw i)))
    (glucose, measurement_type, get_glucose_range glucose measurement_type)
  else (0, "", "")

/-- Translation of `generate_glucose_readings(has_diabetes)` (source
lines 488-524).  Returns (glucose readings, measurement types, glucose
ranges, timestamps). -/
def generate_glucose_readings (has_diabetes : Bool) (num_readings : Nat)
    (tdraws : Nat → Nat × Nat) (tydraw : Nat → Bool) (vdraw : Nat → ℚ) :
    List ℚ × List String × List String × List String :=
  if !has_diabetes then
    ([0, 0, 0, 0], ["", "", "", ""], ["", "", "", ""], ["", "", "", ""])
  else
    let timestamps := generate_measurement_timestamps_with_spacing num_readings 1 tdraws
    ((List.range 4).map fun i => (glucose_slot num_readings tydraw vdraw i).1,
     (List.range 4).map fun i => (glucose_slot num_readings tydraw vdraw i).2.1,
     (List.range 4).map fun i => (glucose_slot num_readings tydraw vdraw i).2.2,
     timestamps)

/-! ### Chronic-condition assignment -/

/-- The ten condition labels with their CCHS prevalence probabilities, in
the order of the sequential `random.random() < p` checks of
`assign_conditions` (source lines 246-265). -/
def prevalence_table : List (String × ℚ) :=
  [("Hypertension", 657/1000),
   ("Periodontal disease", 52/100),
   ("Osteoarthritis", 38/100),
   ("Ischemic heart disease", 27/100),
   ("Diabetes", 268/1000),
   ("Osteoporosis", 251/1000),
   ("Cancer", 215/1000),
   ("COPD", 202/1000),
   ("Asthma", 107/1000),
   ("Mood and/or anxiety disorder", 105/1000)]

/-- The prevalence phase of `assign_conditions` (source lines 243-265):
condition `i` of the table is appended exactly when the `i`-th
`random.random()` draw falls below its prevalence. -/
def initial_conditions (u : Nat → ℚ) : List String :=
  (prevalence_table.enum.filter fun x => decide (u x.1 < x.2.2)).map fun x => x.2.1

/-- The four-condition pool sampled from when no condition was assigned
(source line 271). -/
def fallback_pool : List String :=
  ["Hypertension", "Osteoarthritis", "Diabetes", "Osteoporosis"]

/-- The preference-ordered list used when exactly one condition was
assigned (source line 275). -/
def additional_conditions : List String :=
  ["Hypertension", "Diabetes", "Osteoarthritis", "Osteoporosis",
   "Mood and/or anxiety disorder", "Ischemic heart disease"]

/-- The common conditions force-added by the final floor check (source
line 283). -/
def common_conditions : List String := ["Hypertension", "Osteoarthritis", "Diabetes"]

/-- Model of `random.sample(l, 2)`: two distinct positions, the first
uniform over all of `l`, the second over the remaining positions. -/
def sample2 (l : List String) (d : Nat × Nat) : List String :=
  let i := d.1 % l.length
  let j0 := d.2 % (l.length - 1)
  let j := if i ≤ j0 then j0 + 1 else j0
  [l.getD i "", l.getD j ""]

/-- The final force-add loop of `assign_conditions` (source lines
282-288): walk `common_conditions`, appending absent entries until the
set reaches two members. -/
def force_add_loop : List String → List String → List String
  | conditions, [] => conditions
  | conditions, c :: rest =>
    if decide (c ∈ conditions) then force_add_loop conditions rest
    else
      let conditions2 := conditions ++ [c]
      if 2 ≤ conditions2.length then conditions2 else force_add_loop conditions2 rest

/-- The zero-or-one-condition augmentation of `assign_conditions`
(source lines 270-279): an empty set gets two sampled fallback
conditions; a singleton gets one `random.choice` pick from the
additional conditions not already present. -/
def augment_conditions (conditions : List String) (d : Nat × Nat) (k : Nat) : List String :=
  if conditions.length = 0 then conditions ++ sample2 fallback_pool d
  else if conditions.length = 1 then
    let available := additional_conditions.filter fun c => decide (c ∉ conditions)
    if available.isEmpty then conditions
    else conditions ++ [available.getD (k % available.length) ""]
  else conditions

/-- Translation of `assign_conditions` (source lines 241-290).  `u` is
the stream of `random.random()` prevalence draws, `d` the pair of
`random.sample` index draws for the empty case, and `k` the
`random.choice` index draw for the singleton case. -/
def assign_conditions (u : Nat → ℚ) (d : Nat × Nat) (k : Nat) : List String :=
  let conditions := augment_conditions (initial_conditions u) d k
  if conditions.length < 2 then force_add_loop conditions common_conditions else conditions

lemma initial_conditions_nodup (u : Nat → ℚ) : (initial_conditions u).Nodup := by
  have h1 : (prevalence_table.map Prod.fst).Nodup := by decide
  have h2 : (initial_conditions u).Sublist (prevalence_table.enum.map fun x => x.2.1) :=
    (List.filter_sublist _).map _
  have h3 : (prevalence_table.enum.map fun x : Nat × String × ℚ => x.2.1) =
      prevalence_table.map Prod.fst := rfl
  exact (h3 ▸ h2).nodup h1

lemma sample2_fallback_ok (d : Nat × Nat) :
    (sample2 fallback_pool d).length = 2 ∧ (sample2 fallback_pool d).Nodup := by
  unfold sample2 fallback_pool
  have hi : d.1 % 4 = 0 ∨ d.1 % 4 = 1 ∨ d.1 % 4 = 2 ∨ d.1 % 4 = 3 := by omega
  have hj : d.2 % 3 = 0 ∨ d.2 % 3 = 1 ∨ d.2 % 3 = 2 := by omega
  rcases hi with h | h | h | h <;> rcases hj with h2 | h2 | h2 <;>
    simp only [List.length_cons, List.length_nil, h, h2] <;> decide

lemma augment_conditions_ok (conditions : List String) (d : Nat × Nat) (k : Nat)
    (hnd : conditions.Nodup) :
    2 ≤ (augment_conditions conditions d k).length ∧ (augment_conditions conditions d k).Nodup := by
  unfold augment_conditions
  split_ifs with h0 h1
  · have hc : conditions = [] := List.eq_nil_of_length_eq_zero h0
    subst hc
    obtain ⟨hl, hn⟩ := sample2_fallback_ok d
    rw [List.nil_append]
    exact ⟨le_of_eq hl.symm, hn⟩
  · obtain ⟨x, hx⟩ := List.length_eq_one.mp h1
    subst hx
    have hne : ("Hypertension" : String) ≠ x ∨ ("Diabetes" : String) ≠ x := by
      by_cases hx1 : x = "Hypertension"
      · right
        rw [hx1]
        decide
      · left
        exact fun hh => hx1 hh.symm
    have hmem : ∃ y, y ∈ additional_conditions.filter fun c => decide (c ∉ [x]) := by
      rcases hne with h | h
      · exact ⟨"Hypertension", List.mem_filter.mpr ⟨by decide, by simpa using h⟩⟩
      · exact ⟨"Diabetes", List.mem_filter.mpr ⟨by decide, by simpa using h⟩⟩
    obtain ⟨y, hymem⟩ := hmem
    have hnonempty : ¬ (additional_conditions.filter fun c => decide (c ∉ [x])).isEmpty := by
      rw [List.isEmpty_iff]
      intro hnil
      rw [hnil] at hymem
      exact List.not_mem_nil y hymem
    rw [if_neg hnonempty]
    have hlen : 0 < (additional_conditions.filter fun c => decide (c ∉ [x])).length :=
      List.length_pos.mpr (List.ne_nil_of_mem hymem)
    have hg : (additional_conditions.filter fun c => decide (c ∉ [x])).getD
        (k % (additional_conditions.filter fun c => decide (c ∉ [x])).length) "" ∈
        additional_conditions.filter fun c => decide (c ∉ [x]) := by
      rw [List.getD_eq_getElem _ _ (Nat.mod_lt _ hlen)]
      exact List.getElem_mem _
    have hgx : (additional_conditions.filter fun c => decide (c ∉ [x])).getD
        (k % (additional_conditions.filter fun c => decide (c ∉ [x])).length) "" ≠ x := by
      have h2 := (List.mem_filter.mp hg).2
      simpa using of_decide_eq_true h2
    refine ⟨by simp, ?_⟩
    rw [List.singleton_append]
    exact List.nodup_cons.mpr
      ⟨fun hm => hgx (List.mem_singleton.mp hm).symm, List.nodup_singleton _⟩
  · exact ⟨by omega, hnd⟩

/-! ### Medication assignment -/

/-- A catalog medication entry: the `(med, med_type, category, dosage)`
tuples produced by the catalog parser and consumed by
`assign_medications_by_conditions`. -/
structure Med where
  name : String
  med_type : String
  category : String
  dosage : String
deriving DecidableEq

/-- Substring search over character lists, used to model Python's
`"..." in category` membership test on strings. -/
def str_in_aux (needle : List Char) : List Char → Bool
  | [] => needle.isEmpty
  | c :: rest => needle.isPrefixOf (c :: rest) || str_in_aux needle rest

/-- Model of Python's `needle in hay` substring test on strings. -/
def strIn (needle hay : String) : Bool := str_in_aux needle.data hay.data

/-- Selection step stream model of `random.shuffle` (source line 307):
the realized uniformly random permutation is determined by the index
draw stream, repeatedly extracting the element at the drawn position. -/
def shuffle_go {α : Type} (draws : Nat → Nat) : Nat → Nat → List α → List α
  | 0, _, l => l
  | fuel + 1, k, l =>
    match l with
    | [] => []
    | a :: rest =>
      let j := draws k % (a :: rest).length
      (a :: rest).getD j a :: shuffle_go draws fuel (k + 1) ((a :: rest).eraseIdx j)

/-- Model of Python's in-place `random.shuffle(all_medications)`: returns
the list the caller's catalog holds after the call. -/
def shuffle_model {α : Type} (draws : Nat → Nat) (l : List α) : List α :=
  shuffle_go draws l.length 0 l

/-- The per-candidate `should_assign` computation of
`assign_medications_by_conditions` (source lines 315-331): the
`elif` chain matching medication categories to conditions.  Returns the
decision together with the next `random.random()` draw index (the
probabilistic branches each consume one draw). -/
def should_assign_eval (has_hypertension has_diabetes has_pain has_mood_disorder
    has_respiratory has_cancer : Bool) (category : String) (u : Nat → ℚ) (k : Nat) :
    Bool × Nat :=
  if strIn "Heart health and hypertension" category && has_hypertension then (true, k)
  else if strIn "Diabetes" category && has_diabetes then (true, k)
  else if strIn "Chronic pain and musculoskeletal" category && has_pain then (true, k)
  else if strIn "Mental health" category && has_mood_disorder then (true, k)
  else if has_respiratory && strIn "Other" category then (decide (u k < 6/10), k + 1)
  else if has_cancer && (strIn "Other" category || strIn "Vitamins and supplements" category) then
    (decide (u k < 7/10), k + 1)
  else if strIn "Vitamins and supplements" category then (decide (u k < 7/10), k + 1)
  else (false, k)

/-- One iteration of the catalog loop of
`assign_medications_by_conditions` (source lines 310-336): skip when the
candidate's category already has 2 assigned medications, otherwise
evaluate eligibility and retain with the final `random.random() < 0.9`
draw.  State is (assigned list, per-category counts, draw index). -/
def med_step (has_hypertension has_diabetes has_pain has_mood_disorder
    has_respiratory has_cancer : Bool) (u : Nat → ℚ)
    (state : List Med × (String → Nat) × Nat) (m : Med) : List Med × (String → Nat) × Nat :=
  let assigned := state.1
  let counts := state.2.1
  let k := state.2.2
  if 2 ≤ counts m.category then state
  else
    let r := should_assign_eval has_hypertension has_diabetes has_pain has_mood_disorder
      has_respiratory has_cancer m.category u k
    if r.1 then
      if u r.2 < 9/10 then
        (assigned ++ [m], fun c => if c = m.category then counts c + 1 else counts c, r.2 + 1)
      else (assigned, counts, r.2 + 1)
    else (assigned, counts, r.2)

/-- The full catalog pass of `assign_medications_by_conditions` starting
from the empty assignment. -/
def med_loop (has_hypertension has_diabetes has_pain has_mood_disorder
    has_respiratory has_cancer : Bool) (u : Nat → ℚ) (l : List Med) :
    List Med × (String → Nat) × Nat :=
  l.foldl (med_step has_hypertension has_diabetes has_pain has_mood_disorder
    has_respiratory has_cancer u) ([], fun _ => 0, 0)

/-- The condition-priority default medication chain fired when the
catalog pass assigned nothing (source lines 339-349). -/
def default_med (has_hypertension has_diabetes has_pain has_mood_disorder : Bool) : List Med :=
  if has_hypertension then
    [⟨"Lisinopril", "Prescribed", "Heart health and hypertension", "10 mg once daily"⟩]
  else if has_diabetes then
    [⟨"Metformin", "Prescribed", "Diabetes (oral or injectable)", "500 mg twice daily"⟩]
  else if has_pain then
    [⟨"Ibuprofen", "Prescribed", "Chronic pain and musculoskeletal", "400 mg as needed"⟩]
  else if has_mood_disorder then
    [⟨"Sertraline", "Prescribed", "Mental health (mood and anxiety)", "50 mg once daily"⟩]
  else [⟨"Vitamin D", "Supplement", "Vitamins and supplements", "1000 IU once daily"⟩]

/-- Translation of `assign_medications_by_conditions(conditions,
all_medications)` (source lines 292-351).  `sdraws` supplies the shuffle
index draws and `u` the `random.random()` stream.  Returns the assigned
medication list together with the caller's catalog list as it stands
after the in-place shuffle. -/
def assign_medications_by_conditions (conditions : List String) (all_medications : List Med)
    (sdraws : Nat → Nat) (u : Nat → ℚ) : List Med × List Med :=
  let has_hypertension := decide ("Hypertension" ∈ conditions) ||
    decide ("Ischemic heart disease" ∈ conditions)
  let has_diabetes := decide ("Diabetes" ∈ conditions)
  let has_pain := decide ("Osteoarthritis" ∈ conditions) || decide ("Osteoporosis" ∈ conditions)
  let has_mood_disorder := decide ("Mood and/or anxiety disorder" ∈ conditions)
  let has_respiratory := decide ("COPD" ∈ conditions) || decide ("Asthma" ∈ conditions)
  let has_cancer := decide ("Cancer" ∈ conditions)
  let shuffled := shuffle_model sdraws all_medications
  let final := med_loop has_hypertension has_diabetes has_pain has_mood_disorder
    has_respiratory has_cancer u shuffled
  (if final.1.isEmpty then default_med has_hypertension has_diabetes has_pain has_mood_disorder
   else final.1,
   shuffled)

lemma getD_cons_eraseIdx_perm {α : Type} :
    ∀ (l : List α) (j : Nat) (dflt : α), j < l.length →
      (l.getD j dflt :: l.eraseIdx j).Perm l
  | a :: t, 0, dflt, _ => by
    show (a :: t).Perm (a :: t)
    exact List.Perm.refl _
  | a :: t, j + 1, dflt, h => by
    have ih := getD_cons_eraseIdx_perm t j dflt (by simpa using h)
    show (t.getD j dflt :: a :: t.eraseIdx j).Perm (a :: t)
    exact (List.Perm.swap a (t.getD j dflt) (t.eraseIdx j)).trans (ih.cons a)

lemma shuffle_go_perm {α : Type} (draws : Nat → Nat) :
    ∀ (fuel k : Nat) (l : List α), (shuffle_go draws fuel k l).Perm l
  | 0, _, _ => List.Perm.refl _
  | fuel + 1, k, [] => List.Perm.refl _
  | fuel + 1, k, a :: rest => by
    have hj : draws k % (a :: rest).length < (a :: rest).length :=
      Nat.mod_lt _ (by simp)
    have ih := shuffle_go_perm draws fuel (k + 1)
      ((a :: rest).eraseIdx (draws k % (a :: rest).length))
    show ((a :: rest).getD _ a :: shuffle_go draws fuel (k + 1) _).Perm (a :: rest)
    exact (ih.cons _).trans (getD_cons_eraseIdx_perm _ _ _ hj)

lemma shuffle_model_perm {α : Type} (draws : Nat → Nat) (l : List α) :
    (shuffle_model draws l).Perm l :=
  shuffle_go_perm draws l.length 0 l

lemma med_loop_inv (hyp dia pain mood resp cancer : Bool) (u : Nat → ℚ) :
    ∀ (l : List Med) (assigned : List Med) (counts : String → Nat) (k : Nat),
      (∀ c, counts c = assigned.countP fun m => m.category == c) →
      (∀ c, counts c ≤ 2) →
      (∀ c, (l.foldl (med_step hyp dia pain mood resp cancer u) (assigned, counts, k)).2.1 c =
          ((l.foldl (med_step hyp dia pain mood resp cancer u)
            (assigned, counts, k)).1.countP fun m => m.category == c)) ∧
      (∀ c, (l.foldl (med_step hyp dia pain mood resp cancer u)
          (assigned, counts, k)).2.1 c ≤ 2) := by
  intro l
  induction l with
  | nil =>
    intro assigned counts k h1 h2
    exact ⟨h1, h2⟩
  | cons m rest ih =>
    intro assigned counts k h1 h2
    rw [List.foldl_cons]
    by_cases hc2 : 2 ≤ counts m.category
    · have hstep : med_step hyp dia pain mood resp cancer u (assigned, counts, k) m =
          (assigned, counts, k) := by
        simp [med_step, hc2]
      rw [hstep]
      exact ih assigned counts k h1 h2
    · by_cases hsa : (should_assign_eval hyp dia pain mood resp cancer m.category u k).1 = true
      · by_cases h9 : u (should_assign_eval hyp dia pain mood resp cancer m.category u k).2 < 9/10
        · have hstep : med_step hyp dia pain mood resp cancer u (assigned, counts, k) m =
              (assigned ++ [m], fun c => if c = m.category then counts c + 1 else counts c,
               (should_assign_eval hyp dia pain mood resp cancer m.category u k).2 + 1) := by
            simp [med_step, hc2, hsa, h9]
          rw [hstep]
          apply ih
          · intro c
            rw [List.countP_append, ← h1 c]
            by_cases hcm : c = m.category
            · subst hcm
              simp [List.countP_cons]
            · have hne : (m.category == c) = false := by
                simp [Ne.symm hcm]
              simp [List.countP_cons, hcm, hne]
          · intro c
            by_cases hcm : c = m.category
            · subst hcm
              rw [if_pos rfl]
              omega
            · rw [if_neg hcm]
              exact h2 c
        · have hstep : med_step hyp dia pain mood resp cancer u (assigned, counts, k) m =
              (assigned, counts,
               (should_assign_eval hyp dia pain mood resp cancer m.category u k).2 + 1) := by
            simp [med_step, hc2, hsa, h9]
          rw [hstep]
          exact ih assigned counts _ h1 h2
      · have hstep : med_step hyp dia pain mood resp cancer u (assigned, counts, k) m =
            (assigned, counts,
             (should_assign_eval hyp dia pain mood resp cancer m.category u k).2) := by
          simp [med_step, hc2, hsa]
        rw [hstep]
        exact ih assigned counts _ h1 h2

lemma med_loop_cap (hyp dia pain mood resp cancer : Bool) (u : Nat → ℚ) (l : List Med)
    (c : String) :
    ((med_loop hyp dia pain mood resp cancer u l).1.countP fun m => m.category == c) ≤ 2 := by
  have h := med_loop_inv hyp dia pain mood resp cancer u l [] (fun _ => 0) 0
    (by intro c; simp) (by intro c; simp)
  unfold med_loop
  rw [← (h.1 c)]
  exact h.2 c

/-! ### Count-distribution weight tables -/

/-- The weights of the `np.random.choice([1, 2, 3, 4], p=[0.516, 0.258,
0.129, 0.097])` draw for the number of blood-pressure readings per day
(source line 449); decimal literals written as rationals. -/
def bp_num_readings_probs : List ℚ := [516/1000, 258/1000, 129/1000, 97/1000]

/-- The weights of the `np.random.choice([1, 2, 3, 4], p=[0.516, 0.258,
0.129, 0.097])` draw for the number of glucose readings per day (source
line 494). -/
def glucose_num_readings_probs : List ℚ := [516/1000, 258/1000, 129/1000, 97/1000]

/-- The `exercise_probs = [0.516, 0.258, 0.129, 0.065, 0.032]` weighting
for the number of exercises per day (source line 180), the glossary's
exponential-decay count distribution. -/
def exercise_probs : List ℚ := [516/1000, 258/1000, 129/1000, 65/1000, 32/1000]

/-- The `SUGAR_WEIGHTS = [0.516, 0.258, 0.129, 0.065, 0.032]` weighting
for the added-sugar buckets (source line 151). -/
def SUGAR_WEIGHTS : List ℚ := [516/1000, 258/1000, 129/1000, 65/1000, 32/1000]

end SynthData

namespace SynthData

lemma bp_slot_sub_ge (num_readings : Nat) (sdraw ddraw : Nat → Int) (i : Nat)
    (h : i < num_readings) :
    10 ≤ (bp_slot num_readings sdraw ddraw i).1 - (bp_slot num_readings sdraw ddraw i).2.1 := by
  unfold bp_slot
  rw [if_pos h]
  simp only
  split_ifs with h2 <;> omega

end SynthData

namespace SynthData

/-- C6: every sampled glucose value's stored range label matches the
documented threshold table exactly (pre-meal 4.0/7.0, post-meal 5.0/10.0,
boundary values inclusive to "in range"), in particular glucose 6.5
pre-meal is "in range" and 7.5 pre-meal is "above range"; and every
blood-pressure reading's band labels follow the systolic thresholds
90/120/140 and diastolic thresholds 60/80/90. -/
theorem glucose_and_bp_classification_matches_spec :
    (∀ (g : ℚ) (mt : String), get_glucose_range g mt = glucose_range_spec g mt) ∧
    get_glucose_range 6.5 "Pre meal" = "in range" ∧
    get_glucose_range 7.5 "Pre meal" = "above range" ∧
    (∀ s d : Int, get_bp_type s d = bp_type_spec s d) := by
  refine ⟨fun g mt => ?_, ?_, ?_, fun s d => ?_⟩
  · unfold get_glucose_range glucose_range_spec
    by_cases hmt : mt = "Pre meal"
    · rcases lt_or_le g 4 with h4 | h4
      · simp [hmt, h4]
      · rcases le_or_lt g 7 with h7 | h7
        · simp [hmt, h4, h7, not_lt.mpr h4]
        · simp [hmt, not_lt.mpr h4, h7, not_le.mpr h7]
    · rcases lt_or_le g 5 with h5 | h5
      · simp [hmt, h5]
      · rcases le_or_lt g 10 with h10 | h10
        · simp [hmt, h5, h10, not_lt.mpr h5]
        · simp [hmt, not_lt.mpr h5, h10, not_le.mpr h10]
  · unfold get_glucose_range
    norm_num
  · unfold get_glucose_range
    norm_num
  · unfold get_bp_type bp_type_spec
    split_ifs <;> first | rfl | (exfalso; omega)

/-- C3: for every outcome of the random draws, the chronic-condition
list returned by `assign_conditions` has at least 2 elements and contains
no duplicates: the independent prevalence draws produce distinct labels,
and when they yield zero or one conditions the fallback augmentation
(excluding already-present conditions) always terminates with a set of
size at least 2. -/
theorem condition_floor_and_nodup (u : Nat → ℚ) (d : Nat × Nat) (k : Nat) :
    2 ≤ (assign_conditions u d k).length ∧ (assign_conditions u d k).Nodup := by
  have h := augment_conditions_ok (initial_conditions u) d k (initial_conditions_nodup u)
  unfold assign_conditions
  rw [if_neg (Nat.not_lt.mpr h.1)]
  exact h

/-- C1: for every populated blood-pressure slot (slot index below the
sampled reading count), the stored systolic value exceeds the stored
diastolic value by at least 10 units, for every outcome of the normal
draws. -/
theorem bp_systolic_exceeds_diastolic_by_ten (num_readings : Nat) (tdraws : Nat → Nat × Nat)
    (sdraw ddraw : Nat → Int) (i : Nat) (hi : i < num_readings) (hi4 : i < 4) :
    10 ≤ (generate_blood_pressure_readings true num_readings tdraws sdraw ddraw).1.getD i 0 -
      (generate_blood_pressure_readings true num_readings tdraws sdraw ddraw).2.1.getD i 0 := by
  simp only [generate_blood_pressure_readings, Bool.not_true, Bool.false_eq_true, if_false]
  rw [List.getD_eq_getElem _ _ (by simpa using hi4), List.getD_eq_getElem _ _ (by simpa using hi4)]
  simp only [List.getElem_map, List.getElem_range]
  exact bp_slot_sub_ge _ _ _ _ hi

/-- Witness for C1 at a concrete input: one sampled reading with systolic
draw 130 and diastolic draw 85. -/
theorem bp_systolic_exceeds_diastolic_by_ten_witness :
    (0 < 1 ∧ 0 < 4) ∧
    10 ≤ (generate_blood_pressure_readings true 1 (fun _ => (0, 0)) (fun _ => 130)
        (fun _ => 85)).1.getD 0 0 -
      (generate_blood_pressure_readings true 1 (fun _ => (0, 0)) (fun _ => 130)
        (fun _ => 85)).2.1.getD 0 0 :=
  ⟨⟨by decide, by decide⟩,
   bp_systolic_exceeds_diastolic_by_ten 1 (fun _ => (0, 0)) (fun _ => 130) (fun _ => 85) 0
     (by decide) (by decide)⟩

/-- C2: for every patient whose condition set contains neither
"Hypertension" nor "Ischemic heart disease", all four blood-pressure
slots are zero-valued with empty type and timestamp fields on every
generated day; and for every patient whose condition set does not
contain "Diabetes", all four glucose slots are zero-valued with empty
measurement-type, range and timestamp fields.  The gate booleans are
exactly the membership tests computed in `generate_patient_data`
(source lines 533-535, 583, 586). -/
theorem gating_no_condition_slots_empty (conditions : List String)
    (nbp ngl : Nat) (td1 td2 : Nat → Nat × Nat) (sdraw ddraw : Nat → Int)
    (tydraw : Nat → Bool) (vdraw : Nat → ℚ)
    (h1 : "Hypertension" ∉ conditions) (h2 : "Ischemic heart disease" ∉ conditions)
    (h3 : "Diabetes" ∉ conditions) :
    generate_blood_pressure_readings
        (decide ("Hypertension" ∈ conditions) || decide ("Ischemic heart disease" ∈ conditions))
        nbp td1 sdraw ddraw =
      ([0, 0, 0, 0], [0, 0, 0, 0], ["", "", "", ""], ["", "", "", ""], ["", "", "", ""]) ∧
    generate_glucose_readings (decide ("Diabetes" ∈ conditions)) ngl td2 tydraw vdraw =
      ([0, 0, 0, 0], ["", "", "", ""], ["", "", "", ""], ["", "", "", ""]) := by
  constructor
  · simp [generate_blood_pressure_readings, h1, h2]
  · simp [generate_glucose_readings, h3]

/-- Witness for C2 at a concrete condition set lacking all three gating
conditions. -/
theorem gating_no_condition_slots_empty_witness :
    ("Hypertension" ∉ (["Osteoarthritis", "Osteoporosis"] : List String) ∧
     "Ischemic heart disease" ∉ (["Osteoarthritis", "Osteoporosis"] : List String) ∧
     "Diabetes" ∉ (["Osteoarthritis", "Osteoporosis"] : List String)) ∧
    (generate_blood_pressure_readings
        (decide ("Hypertension" ∈ (["Osteoarthritis", "Osteoporosis"] : List String)) ||
          decide ("Ischemic heart disease" ∈ (["Osteoarthritis", "Osteoporosis"] : List String)))
        2 (fun _ => (0, 0)) (fun _ => 0) (fun _ => 0) =
      ([0, 0, 0, 0], [0, 0, 0, 0], ["", "", "", ""], ["", "", "", ""], ["", "", "", ""]) ∧
     generate_glucose_readings
        (decide ("Diabetes" ∈ (["Osteoarthritis", "Osteoporosis"] : List String)))
        2 (fun _ => (0, 0)) (fun _ => false) (fun _ => 0) =
      ([0, 0, 0, 0], ["", "", "", ""], ["", "", "", ""], ["", "", "", ""])) :=
  ⟨⟨by decide, by decide, by decide⟩,
   gating_no_condition_slots_empty ["Osteoarthritis", "Osteoporosis"] 2 2
     (fun _ => (0, 0)) (fun _ => (0, 0)) (fun _ => 0) (fun _ => 0) (fun _ => false) (fun _ => 0)
     (by decide) (by decide) (by decide)⟩

/-- C5: for every day's exercise generation, the sampled total-minutes
budget is an integer in [5, 29], the `Exercise_Minutes` values of the
populated slots (1 through the sampled count) sum exactly to that budget,
and every slot beyond the sampled count has 0 minutes and an empty type. -/
theorem exercise_budget_and_slots (num_exercises : Nat) (total_minutes : Int)
    (raw_splits : List Int) (selected : List String)
    (hn1 : 1 ≤ num_exercises) (hn5 : num_exercises ≤ 5)
    (ht1 : 5 ≤ total_minutes) (ht2 : total_minutes ≤ 29)
    (hr : raw_splits.length = num_exercises - 1)
    (hrv : ∀ r ∈ raw_splits, 1 ≤ r ∧ r ≤ total_minutes - 1)
    (hs : selected.length = num_exercises) :
    (5 ≤ total_minutes ∧ total_minutes ≤ 29) ∧
    ((generate_exercise_data num_exercises total_minutes raw_splits selected).Exercise_Minutes_1 +
     (generate_exercise_data num_exercises total_minutes raw_splits selected).Exercise_Minutes_2 +
     (generate_exercise_data num_exercises total_minutes raw_splits selected).Exercise_Minutes_3 +
     (generate_exercise_data num_exercises total_minutes raw_splits selected).Exercise_Minutes_4 +
     (generate_exercise_data num_exercises total_minutes raw_splits selected).Exercise_Minutes_5 =
       total_minutes) ∧
    (num_exercises ≤ 1 →
      (generate_exercise_data num_exercises total_minutes raw_splits selected).Exercise_Minutes_2 = 0 ∧
      (generate_exercise_data num_exercises total_minutes raw_splits selected).Exercise_Type_2 = "") ∧
    (num_exercises ≤ 2 →
      (generate_exercise_data num_exercises total_minutes raw_splits selected).Exercise_Minutes_3 = 0 ∧
      (generate_exercise_data num_exercises total_minutes raw_splits selected).Exercise_Type_3 = "") ∧
    (num_exercises ≤ 3 →
      (generate_exercise_data num_exercises total_minutes raw_splits selected).Exercise_Minutes_4 = 0 ∧
      (generate_exercise_data num_exercises total_minutes raw_splits selected).Exercise_Type_4 = "") ∧
    (num_exercises ≤ 4 →
      (generate_exercise_data num_exercises total_minutes raw_splits selected).Exercise_Minutes_5 = 0 ∧
      (generate_exercise_data num_exercises total_minutes raw_splits selected).Exercise_Type_5 = "") := by
  have hml : (if num_exercises = 1 then [total_minutes]
      else diffs ([0] ++ py_sorted raw_splits ++ [total_minutes])).length = num_exercises := by
    split_ifs with h1
    · simp [h1]
    · rw [diffs_length]
      simp [py_sorted_length, hr]
      omega
  have hsum : (if num_exercises = 1 then [total_minutes]
      else diffs ([0] ++ py_sorted raw_splits ++ [total_minutes])).sum = total_minutes := by
    split_ifs with h1
    · simp
    · have := diffs_sum 0 (py_sorted raw_splits ++ [total_minutes])
      simp only [List.cons_append, List.nil_append] at this ⊢
      rw [this, getLastD_concat_int]
      ring
  refine ⟨⟨ht1, ht2⟩, ?_, ?_, ?_, ?_, ?_⟩
  · simp only [generate_exercise_data]
    rw [ex_minutes_eq_getD _ _ _ (by omega), ex_minutes_eq_getD _ _ _ (by omega),
        ex_minutes_eq_getD _ _ _ (by omega), ex_minutes_eq_getD _ _ _ (by omega),
        ex_minutes_eq_getD _ _ _ (by omega)]
    rw [sum_5_getD _ (by omega)]
    exact hsum
  · intro h
    simp only [generate_exercise_data, ex_minutes, ex_type]
    rw [if_neg (by omega), if_neg (by omega)]
    exact ⟨rfl, rfl⟩
  · intro h
    simp only [generate_exercise_data, ex_minutes, ex_type]
    rw [if_neg (by omega), if_neg (by omega)]
    exact ⟨rfl, rfl⟩
  · intro h
    simp only [generate_exercise_data, ex_minutes, ex_type]
    rw [if_neg (by omega), if_neg (by omega)]
    exact ⟨rfl, rfl⟩
  · intro h
    simp only [generate_exercise_data, ex_minutes, ex_type]
    rw [if_neg (by omega), if_neg (by omega)]
    exact ⟨rfl, rfl⟩

/-- Witness for C5 at concrete reachable inputs: 2 exercises, a total
budget of 5 minutes and one split point at 2 give slot minutes 2 and 3. -/
theorem exercise_budget_and_slots_witness :
    (1 ≤ 2 ∧ 2 ≤ 5 ∧ (5:Int) ≤ 5 ∧ (5:Int) ≤ 29 ∧
      ([2] : List Int).length = 2 - 1 ∧
      (∀ r ∈ ([2] : List Int), 1 ≤ r ∧ r ≤ (5:Int) - 1) ∧
      (["walking", "running"] : List String).length = 2) ∧
    ((5 ≤ (5:Int) ∧ (5:Int) ≤ 29) ∧
     ((generate_exercise_data 2 5 [2] ["walking", "running"]).Exercise_Minutes_1 +
      (generate_exercise_data 2 5 [2] ["walking", "running"]).Exercise_Minutes_2 +
      (generate_exercise_data 2 5 [2] ["walking", "running"]).Exercise_Minutes_3 +
      (generate_exercise_data 2 5 [2] ["walking", "running"]).Exercise_Minutes_4 +
      (generate_exercise_data 2 5 [2] ["walking", "running"]).Exercise_Minutes_5 = 5) ∧
     (2 ≤ 1 →
       (generate_exercise_data 2 5 [2] ["walking", "running"]).Exercise_Minutes_2 = 0 ∧
       (generate_exercise_data 2 5 [2] ["walking", "running"]).Exercise_Type_2 = "") ∧
     (2 ≤ 2 →
       (generate_exercise_data 2 5 [2] ["walking", "running"]).Exercise_Minutes_3 = 0 ∧
       (generate_exercise_data 2 5 [2] ["walking", "running"]).Exercise_Type_3 = "") ∧
     (2 ≤ 3 →
       (generate_exercise_data 2 5 [2] ["walking", "running"]).Exercise_Minutes_4 = 0 ∧
       (generate_exercise_data 2 5 [2] ["walking", "running"]).Exercise_Type_4 = "") ∧
     (2 ≤ 4 →
       (generate_exercise_data 2 5 [2] ["walking", "running"]).Exercise_Minutes_5 = 0 ∧
       (generate_exercise_data 2 5 [2] ["walking", "running"]).Exercise_Type_5 = "")) :=
  ⟨by refine ⟨by decide, by decide, by decide, by decide, by decide, ?_, by decide⟩
      intro r hr
      simp only [List.mem_singleton] at hr
      subst hr
      constructor <;> decide,
   exercise_budget_and_slots 2 5 [2] ["walking", "running"] (by decide) (by decide)
     (by decide) (by decide) (by decide)
     (by intro r hr
         simp only [List.mem_singleton] at hr
         subst hr
         constructor <;> decide)
     (by decide)⟩

/-- C10: some outcomes of the random draws produce a slot within the
sampled exercise count whose type is a non-empty exercise name but whose
minutes are 0 — here 3 exercises with total budget 5 and coinciding split
points [2, 2] give slot 2 the type "swimming" with 0 minutes.  All the
exhibited draw values are reachable: 3 is in the 1-5 count range, 5 is in
the 5-29 budget range, both split points are in the 1 to total-1 range,
and the selected types are distinct members of `EXERCISE_TYPES`. -/
theorem zero_minutes_populated_slot_possible :
    (1 ≤ 3 ∧ 3 ≤ 5 ∧ (5:Int) ≤ 5 ∧ (5:Int) ≤ 29 ∧
     ([2, 2] : List Int).length = 3 - 1 ∧
     (∀ r ∈ ([2, 2] : List Int), 1 ≤ r ∧ r ≤ (5:Int) - 1) ∧
     (["walking", "swimming", "running"] : List String).Nodup ∧
     (∀ e ∈ (["walking", "swimming", "running"] : List String), e ∈ EXERCISE_TYPES)) ∧
    (generate_exercise_data 3 5 [2, 2] ["walking", "swimming", "running"]).Exercise_Type_2 =
      "swimming" ∧
    (generate_exercise_data 3 5 [2, 2] ["walking", "swimming", "running"]).Exercise_Minutes_2 = 0 := by
  refine ⟨⟨by decide, by decide, by decide, by decide, by decide, ?_, by decide, by decide⟩, rfl, rfl⟩
  intro r hr
  rcases List.mem_cons.mp hr with h | h
  · subst h; constructor <;> decide
  · simp only [List.mem_singleton] at h
    subst h
    constructor <;> decide

lemma default_med_ok (a b c d : Bool) (s : String) :
    ((default_med a b c d).countP fun m => m.category == s) ≤ 2 ∧
    1 ≤ (default_med a b c d).length := by
  unfold default_med
  split_ifs <;> refine ⟨?_, by simp⟩ <;>
    · rw [List.countP_cons, List.countP_nil]
      split <;> norm_num

/-- C4: for every condition set and every input catalog, the medication
list returned by `assign_medications_by_conditions` contains at most 2
medications sharing any single category, and at least 1 medication
overall (the condition-priority default fallback fires whenever the
catalog pass yields an empty list). -/
theorem medication_category_cap_and_floor (conditions : List String)
    (all_medications : List Med) (sdraws : Nat → Nat) (u : Nat → ℚ) (cat : String) :
    ((assign_medications_by_conditions conditions all_medications sdraws u).1.countP
        fun m => m.category == cat) ≤ 2 ∧
    1 ≤ (assign_medications_by_conditions conditions all_medications sdraws u).1.length := by
  simp only [assign_medications_by_conditions, med_loop]
  split_ifs with hemp
  · exact default_med_ok _ _ _ _ cat
  · constructor
    · exact med_loop_cap _ _ _ _ _ _ u (shuffle_model sdraws all_medications) cat
    · rw [List.isEmpty_iff] at hemp
      exact List.length_pos.mpr hemp

/-- C8 counterexample: the claim that the caller's medication catalog is
unchanged (same elements in the same order) after the call fails: with
shuffle index draws all equal to 1, the two-entry catalog comes back in
the opposite order. -/
theorem catalog_order_not_preserved :
    (assign_medications_by_conditions ["Hypertension", "Diabetes"]
        [⟨"Aspirin", "Over-the-counter", "Other", "81 mg once daily"⟩,
         ⟨"Vitamin D", "Supplement", "Vitamins and supplements", "1000 IU once daily"⟩]
        (fun _ => 1) (fun _ => 1)).2 ≠
      [⟨"Aspirin", "Over-the-counter", "Other", "81 mg once daily"⟩,
       ⟨"Vitamin D", "Supplement", "Vitamins and supplements", "1000 IU once daily"⟩] := by
  decide

/-- C8 (amended): `assign_medications_by_conditions` mutates the caller's
catalog only by shuffling it in place: after every call the catalog holds
the same elements as before as a multiset — a permutation of the input —
though not necessarily in the same order, so later patients' calls see
the same catalog contents. -/
theorem catalog_is_permutation_after_call (conditions : List String)
    (all_medications : List Med) (sdraws : Nat → Nat) (u : Nat → ℚ) :
    ((assign_medications_by_conditions conditions all_medications sdraws u).2).Perm
      all_medications := by
  simp only [assign_medications_by_conditions]
  exact shuffle_model_perm sdraws all_medications

/-- C9: for a patient flagged with both a respiratory condition and
cancer, eligibility of a candidate whose category is "Other" is decided
by the respiratory rule at threshold 0.6, regardless of the other
condition flags; the cancer-specific 0.7 rule applies to an "Other"
candidate only when the respiratory flag is off — the `elif` chain checks
respiratory first, cancer second. -/
theorem other_category_respiratory_before_cancer (hyp dia pain mood : Bool)
    (u : Nat → ℚ) (k : Nat) :
    should_assign_eval hyp dia pain mood true true "Other" u k =
      (decide (u k < 6/10), k + 1) ∧
    should_assign_eval hyp dia pain mood false true "Other" u k =
      (decide (u k < 7/10), k + 1) := by
  have e1 : strIn "Heart health and hypertension" "Other" = false := by decide
  have e2 : strIn "Diabetes" "Other" = false := by decide
  have e3 : strIn "Chronic pain and musculoskeletal" "Other" = false := by decide
  have e4 : strIn "Mental health" "Other" = false := by decide
  have e5 : strIn "Other" "Other" = true := by decide
  constructor <;> simp [should_assign_eval, e1, e2, e3, e4, e5]

/-- C7 counterexample: the blood-pressure/glucose per-day reading-count
draw does not use the glossary's exponential-decay weighting
0.516/0.258/0.129/0.065/0.032 — the weight the code assigns to a
4-reading day is 0.097, not 0.065 as used for exercise counts. -/
theorem reading_count_weight_mismatch :
    bp_num_readings_probs.getD 3 0 = 97/1000 ∧
    glucose_num_readings_probs.getD 3 0 = 97/1000 ∧
    exercise_probs.getD 3 0 = 65/1000 ∧
    bp_num_readings_probs.getD 3 0 ≠ exercise_probs.getD 3 0 := by
  refine ⟨rfl, rfl, rfl, ?_⟩
  show (97 : ℚ)/1000 ≠ 65/1000
  norm_num

/-- C7 (amended): blood-pressure and glucose reading counts are drawn
from {1, 2, 3, 4} with weights 0.516/0.258/0.129/0.097: the first three
weights match the glossary's exponential-decay weighting (shared with
exercise counts and sugar buckets), but the 4-reading day receives the
residual mass 0.097 = 1 − (0.516 + 0.258 + 0.129) rather than ≈0.065. -/
theorem reading_count_weights_actual :
    bp_num_readings_probs = [516/1000, 258/1000, 129/1000, 97/1000] ∧
    glucose_num_readings_probs = bp_num_readings_probs ∧
    bp_num_readings_probs.take 3 = exercise_probs.take 3 ∧
    SUGAR_WEIGHTS = exercise_probs ∧
    bp_num_readings_probs.sum = 1 ∧
    (97 : ℚ)/1000 = 1 - (516/1000 + 258/1000 + 129/1000) := by
  refine ⟨rfl, rfl, rfl, rfl, ?_, by norm_num⟩
  simp only [bp_num_readings_probs, List.sum_cons, List.sum_nil]
  norm_num

end SynthData
